import Mathlib

/-!
Verification model of the conversation-state and function-dispatch core of
the Zendesk voice agent (src/zendesk_voice_agent.py).  Python functions are
shallowly embedded as executable Lean definitions; external collaborators
(the language model and the ticketing backend) are passed in as explicit
oracle parameters; every external invocation the step performs is recorded
in a call trace.  All definitions are translated directly from the source.
-/

set_option maxRecDepth 4096

/-- The single-quote character, used to build string literals faithfully. -/
def q : String := String.mk [Char.ofNat 39]

/-- ASCII letter test, mirroring the regex classes [A-Za-z]. -/
def isAsciiAlphaCh (c : Char) : Bool :=
  (65 ≤ c.toNat && c.toNat ≤ 90) || (97 ≤ c.toNat && c.toNat ≤ 122)

/-- ASCII digit test, mirroring the regex class [0-9] and d-class. -/
def isDigitCh (c : Char) : Bool := 48 ≤ c.toNat && c.toNat ≤ 57

/-- Python regex whitespace (ASCII): space, tab, newline, return, vtab, formfeed. -/
def isSpaceChar (c : Char) : Bool :=
  c.toNat = 32 || c.toNat = 9 || c.toNat = 10 || c.toNat = 13 || c.toNat = 11 || c.toNat = 12

/-- Regex word character (ASCII), as used by the word-boundary assertion. -/
def isWordChar (c : Char) : Bool := isAsciiAlphaCh c || isDigitCh c || c == '_'

/-- Word-character test on an optional character; the edge of the string counts
as a non-word position. -/
def isWordOpt : Option Char → Bool
  | some c => isWordChar c
  | none => false

/-- ASCII lower-casing of one character, as Python str.lower does on ASCII text. -/
def chLower (c : Char) : Char := Char.toLower c

/-- Model of Python str.lower (ASCII inputs). -/
def pyLower (s : String) : String := String.mk (s.data.map chLower)

/-- Strip leading and trailing whitespace from a character list. -/
def stripChars (l : List Char) : List Char :=
  ((l.dropWhile isSpaceChar).reverse.dropWhile isSpaceChar).reverse

/-- Model of Python str.strip. -/
def pyStrip (s : String) : String := String.mk (stripChars s.data)

/-- Does the first list occur at the head of the second one? -/
def leadsWith : List Char → List Char → Bool
  | [], _ => true
  | _ :: _, [] => false
  | a :: as, b :: bs => a == b && leadsWith as bs

/-- Substring containment on character lists (needle, then haystack). -/
def hasSub (needle : List Char) : List Char → Bool
  | [] => needle.isEmpty
  | c :: cs => leadsWith needle (c :: cs) || hasSub needle cs

/-- Model of the Python test needle in hay on strings. -/
def strContainsSub (hay needle : String) : Bool := hasSub needle.data hay.data

/-- Model of any keyword in text for keyword in kws. -/
def containsAny (hay : String) (kws : List String) : Bool :=
  kws.any (fun k => strContainsSub hay k)

/-- Model of a Python f-string interpolation of a possibly-None value. -/
def pyOptStr : Option String → String
  | some s => s
  | none => "None"

/-- Model of Python x or default for an optional string (None and the empty
string are falsy). -/
def pyOrD (o : Option String) (d : String) : String :=
  match o with
  | some s => if s = "" then d else s
  | none => d

/-- Python truthiness of an optional string (None and the empty string are falsy). -/
def truthyS : Option String → Bool
  | some s => !(s == "")
  | none => false

/-- Model of the Python expression sep-space join on a list of strings. -/
def joinSp : List String → String
  | [] => ""
  | [s] => s
  | s :: rest => s ++ " " ++ joinSp rest

/-- Atoms of the small backtracking regex engine: greedy bounded class
repetition, (case-insensitive) literals, literal alternation and the
word-boundary assertion — exactly the constructs the source regexes use. -/
inductive RAtom where
  | rcls (lo : Nat) (hi : Option Nat) (p : Char → Bool)
  | rlit (ci : Bool) (s : List Char)
  | ralt (alts : List (List Char))
  | rwb

/-- Result of a fueled match attempt: fuel ran out, genuine failure, or the
matched characters. -/
inductive MRes where
  | out
  | nomatch
  | found (m : List Char)
deriving DecidableEq, Repr

/-- Does the literal match here (optionally case-insensitively)? -/
def litHere (ci : Bool) : List Char → List Char → Bool
  | [], _ => true
  | _ :: _, [] => false
  | a :: as, b :: bs =>
      (if ci then chLower a == chLower b else a == b) && litHere ci as bs

/-- The character preceding the continuation after consuming n characters of cs. -/
def prevAfter (prev : Option Char) (cs : List Char) (n : Nat) : Option Char :=
  match (cs.take n).getLast? with
  | some c => some c
  | none => prev

/-- Prepend the consumed prefix onto a successful match result. -/
def mapFound (pre : List Char) : MRes → MRes
  | .found m => .found (pre ++ m)
  | r => r

mutual

/-- Backtracking matcher for an atom sequence at the current position.  prev is
the character just before the position (for word boundaries).  Fuel only
bounds the recursion depth; .out is returned when it runs out, so a .nomatch
or .found answer is always a genuine one. -/
def matchAtoms : Nat → List RAtom → Option Char → List Char → MRes
  | 0, _, _, _ => .out
  | fuel + 1, atoms, prev, cs =>
      match atoms with
      | [] => .found []
      | .rwb :: rest =>
          if isWordOpt prev != isWordOpt cs.head? then matchAtoms fuel rest prev cs
          else .nomatch
      | .rlit ci s :: rest =>
          if litHere ci s cs then
            mapFound (cs.take s.length)
              (matchAtoms fuel rest (prevAfter prev cs s.length) (cs.drop s.length))
          else .nomatch
      | .ralt alts :: rest => altLoop fuel alts rest prev cs
      | .rcls lo hi p :: rest =>
          let maxRun := (cs.takeWhile p).length
          greedyLoop fuel lo rest prev cs
            (match hi with | some h => min h maxRun | none => maxRun)

/-- Try the literal alternatives left to right, backtracking into the rest. -/
def altLoop : Nat → List (List Char) → List RAtom → Option Char → List Char → MRes
  | 0, _, _, _, _ => .out
  | _ + 1, [], _, _, _ => .nomatch
  | fuel + 1, s :: more, rest, prev, cs =>
      if litHere true s cs then
        match matchAtoms fuel rest (prevAfter prev cs s.length) (cs.drop s.length) with
        | .found m => .found (cs.take s.length ++ m)
        | .out => .out
        | .nomatch => altLoop fuel more rest prev cs
      else altLoop fuel more rest prev cs

/-- Greedy repetition: consume k characters of the class run (largest first)
and backtrack downwards to the lower bound. -/
def greedyLoop : Nat → Nat → List RAtom → Option Char → List Char → Nat → MRes
  | 0, _, _, _, _, _ => .out
  | fuel + 1, lo, rest, prev, cs, k =>
      if k < lo then .nomatch
      else
        match matchAtoms fuel rest (prevAfter prev cs k) (cs.drop k) with
        | .found m => .found (cs.take k ++ m)
        | .out => .out
        | .nomatch =>
            match k with
            | 0 => .nomatch
            | k' + 1 => greedyLoop fuel lo rest prev cs k'

end

/-- Leftmost search, as re.search: try each start position in order.  The
matcher at each position is given ample fuel (2000 far exceeds any path the
source patterns can take on the inputs considered). -/
def searchFrom (atoms : List RAtom) : Option Char → List Char → MRes
  | prev, cs =>
      match matchAtoms 2000 atoms prev cs, cs with
      | .found m, _ => .found m
      | .out, _ => .out
      | .nomatch, [] => .nomatch
      | .nomatch, c :: rest => searchFrom atoms (some c) rest

/-- The class [A-Za-z0-9._%+-] of the email user part. -/
def userCls (c : Char) : Bool :=
  isAsciiAlphaCh c || isDigitCh c || c == '.' || c == '_' || c == '%' || c == '+' || c == '-'

/-- The class [A-Za-z0-9.-] of the email domain part. -/
def domCls (c : Char) : Bool := isAsciiAlphaCh c || isDigitCh c || c == '.' || c == '-'

/-- The class [A-Z|a-z] of the top-level-domain part (the source class really
contains the pipe character). -/
def tldCls (c : Char) : Bool := isAsciiAlphaCh c || c == '|'

/-- Whitespace class for the regex star/plus occurrences of backslash-s. -/
def wsCls (c : Char) : Bool := isSpaceChar c

/-- Standard email pattern (first pattern of extract_email_from_text). -/
def emailPattern1 : List RAtom :=
  [.rwb, .rcls 1 none userCls, .rlit true ['@'], .rcls 1 none domCls,
   .rlit true ['.'], .rcls 2 none tldCls, .rwb]

/-- Spoken-form email pattern (second pattern): user at domain dot tld. -/
def emailPattern2 : List RAtom :=
  [.rcls 1 none userCls, .rcls 0 none wsCls, .rlit true ['a', 't'],
   .rcls 0 none wsCls, .rcls 1 none domCls, .rcls 0 none wsCls,
   .rlit true ['d', 'o', 't'], .rcls 0 none wsCls, .rcls 2 none tldCls]

/-- Spaced email pattern (third pattern): user @ domain . tld with spaces. -/
def emailPattern3 : List RAtom :=
  [.rcls 1 none userCls, .rcls 0 none wsCls, .rlit true ['@'],
   .rcls 0 none wsCls, .rcls 1 none domCls, .rcls 0 none wsCls,
   .rlit true ['.'], .rcls 0 none wsCls, .rcls 2 none tldCls]

/-- Try the three email patterns in source order and return the first match. -/
def findEmailMatch (cs : List Char) : MRes :=
  match searchFrom emailPattern1 none cs with
  | .found m => .found m
  | .out => .out
  | .nomatch =>
      match searchFrom emailPattern2 none cs with
      | .found m => .found m
      | .out => .out
      | .nomatch => searchFrom emailPattern3 none cs

/-- Word-bounded case-insensitive replacement of the word (a :: w) by r, as
re.sub with word-boundary anchors: since every character of the replaced words
(at, dot) is a word character, the boundary holds exactly when the neighbouring
original characters are absent or non-word.  The fuel argument only bounds the
recursion for the kernel; every step consumes at least one input character, so
fuel equal to the input length (as the caller passes) is never exhausted. -/
def subWordCI (a : Char) (w : List Char) (r : List Char) :
    Nat → Option Char → List Char → List Char
  | 0, _, l => l
  | _ + 1, _, [] => []
  | fuel + 1, prev, c :: cs =>
      if !isWordOpt prev && litHere true (a :: w) (c :: cs)
          && !isWordOpt ((cs.drop w.length).head?) then
        r ++ subWordCI a w r fuel ((c :: cs).take (w.length + 1)).getLast? (cs.drop w.length)
      else
        c :: subWordCI a w r fuel (some c) cs

/-- Model of extract_email_from_text: search the three patterns in order, then
normalize the match by removing all whitespace, then substituting word-bounded
at and dot (the source performs the substitutions in exactly this order, after
the whitespace removal). -/
def extract_email_from_text (text : String) : Option String :=
  match findEmailMatch text.data with
  | .found m =>
      let m1 := m.filter (fun c => !isSpaceChar c)
      let m2 := subWordCI 'a' ['t'] ['@'] m1.length none m1
      some (String.mk (subWordCI 'd' ['o', 't'] ['.'] m2.length none m2))
  | _ => none

/-- Customer record as projected by get_customer_info from the ticketing
backend user object (each field read with dict get, hence optional). -/
structure Customer where
  id : Option Nat := none
  name : Option String := none
  email : Option String := none
  phone : Option String := none
  created_at : Option String := none
deriving DecidableEq, Repr

/-- Ticket object as used by the dispatcher and renderer: the id key is always
present on Zendesk tickets; subject and description are read with dict get. -/
structure Ticket where
  id : Nat
  subject : Option String := none
  description : Option String := none
deriving DecidableEq, Repr

/-- The argument dictionary of a parsed function call (all keys optional, as
with the Python dict produced from the model output). -/
structure FnArgs where
  email : Option String := none
  subject : Option String := none
  description : Option String := none
  priority : Option String := none
  search_type : Option String := none
  ticket_id : Option String := none
  comment : Option String := none
  public : Option Bool := none
  reason : Option String := none
deriving DecidableEq, Repr

/-- Python truthiness of the arguments dictionary: nonempty iff some key is set. -/
def FnArgs.nonempty (a : FnArgs) : Bool :=
  a.email.isSome || a.subject.isSome || a.description.isSome || a.priority.isSome
    || a.search_type.isSome || a.ticket_id.isSome || a.comment.isSome
    || a.public.isSome || a.reason.isSome

/-- The uniform result dictionary returned by execute_zendesk_function; a field
is none exactly when the corresponding key is absent from the Python dict. -/
structure FnResult where
  success : Bool := false
  error : Option String := none
  needs_confirmation : Bool := false
  email : Option String := none
  message : Option String := none
  action : Option String := none
  ticket_id : Option String := none
  customer_id : Option Nat := none
  customer : Option Customer := none
  appointments : Option (List Ticket) := none
  orders : Option (List Ticket) := none
  tickets : Option (List Ticket) := none
deriving DecidableEq, Repr

/-- Payload of ZendeskAPI.create_ticket. -/
structure CreateTicketReq where
  subject : String
  comment : String
  requester_email : String
  requester_name : Option String
  tags : List String
  priority : String
deriving DecidableEq, Repr

/-- Oracle for the ticketing backend (the ZendeskAPI class): each field models
one of its network operations as a pure function. -/
structure Backend where
  getCustomerByEmail : String → Option Customer
  getOpenTicketsByEmail : String → List Ticket
  createTicket : CreateTicketReq → Option String
  addCommentToTicket : String → String → Bool → Bool
  createCustomer : String → Option Customer

/-- Keyword set used to bucket appointment tickets in search_customer_tickets. -/
def appointment_keywords : List String :=
  ["appointment", "meeting", "schedule", "booking", "call", "evisa", "visa"]

/-- Keyword set used to bucket order tickets in search_customer_tickets. -/
def order_keywords : List String := ["order", "purchase", "payment", "invoice"]

/-- Model of execute_zendesk_function: dispatch on the function name, check the
required-argument truthiness, call the backend and build the uniform result
dictionary, exactly following the source branches. -/
def execute_zendesk_function (be : Backend) (function_name : String)
    (args : FnArgs) : FnResult :=
  if function_name = "get_customer_info" then
    if !truthyS args.email then {error := some "Email is required"}
    else
      match be.getCustomerByEmail (args.email.getD "") with
      | some c => {success := true, customer := some c}
      | none => {success := false, error := some "Customer not found"}
  else if function_name = "search_customer_tickets" then
    let search_type := args.search_type.getD "all"
    if !truthyS args.email then {error := some "Email is required"}
    else
      let tickets := be.getOpenTicketsByEmail (args.email.getD "")
      if search_type = "appointments" then
        {success := true,
         appointments := some (tickets.filter (fun tk =>
           appointment_keywords.any (fun k => strContainsSub (pyLower (tk.subject.getD "")) k)
             || appointment_keywords.any (fun k => strContainsSub (pyLower (tk.description.getD "")) k)))}
      else if search_type = "orders" then
        {success := true,
         orders := some (tickets.filter (fun tk =>
           order_keywords.any (fun k => strContainsSub (pyLower (tk.subject.getD "")) k)))}
      else {success := true, tickets := some tickets}
  else if function_name = "create_support_ticket" then
    if !(truthyS args.email && truthyS args.subject && truthyS args.description) then
      {error := some "Email, subject, and description are required"}
    else
      let email := args.email.getD ""
      match be.getCustomerByEmail email with
      | none => {error := some "Customer not found", needs_confirmation := true,
                 email := some email}
      | some customer =>
          match be.getOpenTicketsByEmail email with
          | tk :: _ =>
              if be.addCommentToTicket (toString tk.id) (args.description.getD "") false then
                {success := true, action := some "note_added",
                 ticket_id := some (toString tk.id),
                 message := some "Your request has been added to your existing ticket."}
              else {error := some "Failed to add note to existing ticket"}
          | [] =>
              match be.createTicket
                  {subject := args.subject.getD "", comment := args.description.getD "",
                   requester_email := email, requester_name := customer.name,
                   tags := ["voice_chat", "support"], priority := args.priority.getD "normal"} with
              | some tid =>
                  {success := true, action := some "ticket_created", ticket_id := some tid,
                   message := some "Your request has been submitted successfully."}
              | none => {error := some "Failed to create ticket"}
  else if function_name = "confirm_email_and_create_ticket" then
    if !(truthyS args.email && truthyS args.subject && truthyS args.description) then
      {error := some "Email, subject, and description are required"}
    else
      let email := args.email.getD ""
      match be.createCustomer email with
      | none => {error := some "Failed to create customer account"}
      | some customer =>
          match be.createTicket
              {subject := args.subject.getD "", comment := args.description.getD "",
               requester_email := email, requester_name := customer.name,
               tags := ["voice_chat", "support", "new_customer"],
               priority := args.priority.getD "normal"} with
          | some tid =>
              {success := true, action := some "customer_and_ticket_created",
               ticket_id := some tid, customer_id := customer.id,
               message := some ("Great! I" ++ q ++ "ve created your account and submitted your request. Our team will review it and get back to you soon.")}
          | none => {error := some "Failed to create ticket"}
  else if function_name = "add_comment_to_ticket" then
    if !(truthyS args.ticket_id && truthyS args.comment) then
      {error := some "Ticket ID and comment are required"}
    else if be.addCommentToTicket (args.ticket_id.getD "") (args.comment.getD "")
        (args.public.getD true) then
      {success := true, message := some ("Comment added to ticket #" ++ args.ticket_id.getD "")}
    else {error := some "Failed to add comment"}
  else if function_name = "escalate_to_billing" then
    if !(truthyS args.email && truthyS args.reason) then
      {error := some "Email and reason are required"}
    else
      let email := args.email.getD ""
      match be.getCustomerByEmail email with
      | none => {error := some "Customer not found for escalation"}
      | some customer =>
          match be.getOpenTicketsByEmail email with
          | tk :: _ =>
              if be.addCommentToTicket (toString tk.id)
                  ("Escalation to billing: " ++ args.reason.getD "") false then
                {success := true,
                 message := some "Your request has been escalated to our billing department. They will review your case and contact you within 24 hours."}
              else {error := some "Failed to add escalation note to ticket"}
          | [] =>
              match be.createTicket
                  {subject := "Billing Escalation Request",
                   comment := "Escalation to billing: " ++ args.reason.getD "",
                   requester_email := email, requester_name := customer.name,
                   tags := ["voice_chat", "support", "escalation"],
                   priority := args.priority.getD "normal"} with
              | some _ =>
                  {success := true,
                   message := some "Your request has been escalated to our billing department. They will review your case and contact you within 24 hours."}
              | none => {error := some "Failed to create ticket for escalation"}
  else {error := some ("Unknown function: " ++ function_name)}


/-- The twelve month-name alternatives of the appointment date regex. -/
def monthAlts : List (List Char) :=
  ["January", "February", "March", "April", "May", "June", "July", "August",
   "September", "October", "November", "December"].map String.data

/-- Appointment date pattern: one or two digits, spaces, a month name, spaces,
four digits (searched with IGNORECASE; the outer group is the whole match). -/
def datePattern : List RAtom :=
  [.rcls 1 (some 2) isDigitCh, .rcls 1 none wsCls, .ralt monthAlts,
   .rcls 1 none wsCls, .rcls 4 (some 4) isDigitCh]

/-- Payment pattern: digits, optional spaces, the literal USD (case sensitive:
this search is performed without the IGNORECASE flag in the source). -/
def paymentPattern : List RAtom :=
  [.rcls 1 none isDigitCh, .rcls 0 none wsCls, .rlit false ['U', 'S', 'D']]

/-- Invoice pattern: the word Invoice, optional spaces, a dash, optional
spaces, then a nonempty run of non-space characters. -/
def invoicePattern : List RAtom :=
  [.rlit true "Invoice".data, .rcls 0 none wsCls, .rlit true ['-'],
   .rcls 0 none wsCls, .rcls 1 none (fun c => !isSpaceChar c)]

/-- Product pattern: the word Product, optional spaces, a dash, optional
spaces, then a nonempty run of word or space characters. -/
def productPattern : List RAtom :=
  [.rlit true "Product".data, .rcls 0 none wsCls, .rlit true ['-'],
   .rcls 0 none wsCls, .rcls 1 none (fun c => isWordChar c || isSpaceChar c)]

/-- Group 1 of an Invoice or Product match: drop the 7-character leading word,
surrounding spaces and the dash from the full match. -/
def dashGroup (m : List Char) : String :=
  String.mk ((((m.drop 7).dropWhile wsCls).drop 1).dropWhile wsCls)

/-- Renderer text for one appointment in the search result (source lines that
extract a date and a paid amount from the free-text description). -/
def appointmentSegment (appt : Ticket) : String :=
  let subject := appt.subject.getD "No subject"
  let description := appt.description.getD ""
  (match searchFrom datePattern none description.data with
   | .found m => "Your " ++ subject ++ " appointment is scheduled for "
       ++ String.mk m ++ ". "
   | _ => "Appointment: " ++ subject ++ ". ") ++
  (if strContainsSub (pyLower description) "paid" then
     match searchFrom paymentPattern none description.data with
     | .found m => "You paid " ++ String.mk (m.takeWhile isDigitCh)
         ++ " USD for this service. "
     | _ => ""
   else "") ++
  "Details: " ++ description ++ " "

/-- Renderer for the appointments bucket of a search result. -/
def renderAppointments (appts : List Ticket) : String :=
  if appts.isEmpty then
    "I don" ++ q ++ "t see any appointments scheduled for you at the moment."
  else
    "I found " ++ toString appts.length ++ " appointment(s) for you. "
      ++ String.join ((appts.take 3).map appointmentSegment)
      ++ "Would you like me to help you reschedule this appointment?"

/-- Renderer text for one order in the search result. -/
def orderSegment (o : Ticket) : String :=
  let subject := o.subject.getD "No subject"
  let description := o.description.getD ""
  "Order #" ++ toString o.id ++ ": " ++ subject ++ ". " ++
  (match searchFrom invoicePattern none description.data with
   | .found m => "Invoice: " ++ dashGroup m ++ ". "
   | _ => "") ++
  (match searchFrom productPattern none description.data with
   | .found m => "Product: " ++ dashGroup m ++ ". "
   | _ => "") ++
  "Details: " ++ description ++ " "

/-- Renderer for the orders bucket of a search result. -/
def renderOrders (ords : List Ticket) : String :=
  if ords.isEmpty then
    "I don" ++ q ++ "t see any orders in your account at the moment."
  else
    "I found " ++ toString ords.length ++ " order(s) for you. "
      ++ String.join ((ords.take 3).map orderSegment)

/-- Renderer text for one generic ticket in the search result. -/
def ticketSegment (tk : Ticket) : String :=
  "Ticket #" ++ toString tk.id ++ ": " ++ tk.subject.getD "No subject" ++ ". "
    ++ "Details: " ++ tk.description.getD "" ++ " "

/-- Renderer for the generic-tickets bucket of a search result. -/
def renderTickets (tks : List Ticket) : String :=
  if tks.isEmpty then
    "I don" ++ q ++ "t see any open tickets for you at the moment."
  else
    "I found " ++ toString tks.length ++ " ticket(s) for you. "
      ++ String.join ((tks.take 3).map ticketSegment)

/-- One entry of the conversation history. -/
structure DialogueTurn where
  role : String
  content : String
deriving DecidableEq, Repr

/-- The global session state of the agent, collecting the module-level mutable
variables the conversation step reads and writes.  The last_ticket, last_order
and last_appointment globals are included for completeness: the source never
writes them globally (the apparent writes inside the renderer create function
locals because those names are missing from the global declaration). -/
structure AgentState where
  conversation_history : List DialogueTurn := []
  conversation_topic : String := ""
  customer_email : Option String := none
  customer_data : Option Customer := none
  pending_ticket_request : Option FnArgs := none
  email_confirmation_pending : Bool := false
  last_intent : Option String := none
  last_intent_details : Option String := none
  last_ticket : Option Ticket := none
  last_order : Option Ticket := none
  last_appointment : Option Ticket := none
deriving DecidableEq, Repr

/-- External invocations performed during one conversation step: one language
model call, or one execute_zendesk_function dispatch with its arguments. -/
inductive ExtCall where
  | llmCall
  | dispatchCall (name : String) (args : FnArgs)
deriving DecidableEq, Repr

/-- Oracle for the language model answer of this turn, after the JSON scan of
the raw response text: either no function-call JSON was found (direct), or one
was found and parsed into a name and an arguments dictionary (fnCall, which
also carries the full raw response text used when the call is rejected). -/
inductive LlmResponse where
  | direct (text : String)
  | fnCall (name : String) (args : FnArgs) (raw : String)
deriving DecidableEq, Repr

/-- Result of one conversation step: the new state, the spoken reply, and the
trace of external calls made. -/
structure StepOut where
  st : AgentState
  reply : String
  calls : List ExtCall
deriving Repr

/-- Append the user turn and the assistant turn to the history, as every
branch of process_with_function_calling does before returning. -/
def appendTurns (st : AgentState) (t r : String) : AgentState :=
  {st with conversation_history :=
    st.conversation_history ++ [⟨"user", t⟩, ⟨"assistant", r⟩]}

/-- Intent keyword set for the refund intent. -/
def refund_keywords : List String := ["refund", "money back", "return", "cancel"]

/-- Intent keyword set for the escalate intent. -/
def escalate_keywords : List String := ["escalate", "billing"]

/-- Intent keyword set for the support intent. -/
def support_keywords : List String := ["appointment", "order", "ticket", "support"]

/-- Confirmation keyword set of the email-confirmation flow. -/
def confirmation_keywords : List String :=
  ["yes", "correct", "right", "that" ++ q ++ "s right", "that is correct",
   "confirm", "okay", "ok"]

/-- Denial keyword set of the email-confirmation flow. -/
def denial_keywords : List String :=
  ["no", "wrong", "incorrect", "that" ++ q ++ "s wrong", "that is wrong",
   "not correct", "different"]

/-- Greeting keyword set answered without any model or dispatcher call. -/
def simple_greetings : List String :=
  ["hello", "hi", "hey", "good morning", "good afternoon", "good evening"]

/-- General-question keyword set answered without any model or dispatcher call. -/
def general_questions : List String :=
  ["how are you", "what can you help with", "what can you do", "how does this work"]

/-- Account-scoped keyword set that triggers the ask-for-email short circuit. -/
def account_keywords : List String :=
  ["my account", "my appointment", "my order", "my ticket", "my payment",
   "how much did i pay", "when is my", "escalate", "billing"]

/-- Step 1 of the conversation step: extract an email from the utterance and,
if found, overwrite the session email. -/
def update_email (st : AgentState) (transcript : String) : AgentState :=
  match extract_email_from_text transcript with
  | some e => {st with customer_email := some e}
  | none => st

/-- Step 2: sticky intent tracking by keyword containment, in the source
priority order; no keyword match keeps the previous intent. -/
def update_intent (st : AgentState) (transcript tl : String) : AgentState :=
  if containsAny tl refund_keywords then
    {st with last_intent := some "refund", last_intent_details := some transcript}
  else if containsAny tl escalate_keywords then
    {st with last_intent := some "escalate", last_intent_details := some transcript}
  else if containsAny tl support_keywords then
    {st with last_intent := some "support", last_intent_details := some transcript}
  else st

/-- The guard of the email-confirmation flow: the pending flag is set and the
pending request dictionary is truthy. -/
def confirm_gate (st : AgentState) : Bool :=
  st.email_confirmation_pending &&
    (match st.pending_ticket_request with
     | some r => r.nonempty
     | none => false)

/-- Re-prompt spoken when a confirmation-state utterance matches neither the
confirmation nor the denial keyword set. -/
def unclear_confirmation_reply : String :=
  "I didn" ++ q ++ "t catch that. Could you please confirm if that email address is correct? Just say " ++ q ++ "yes" ++ q ++ " or " ++ q ++ "no" ++ q ++ "."

/-- The email-confirmation flow: confirmation keywords are tested first, then
denial keywords; otherwise re-prompt.  The confirm branch dispatches
confirm_email_and_create_ticket with the pending request and clears the
pending state; the deny branch clears the pending state and the session email
without dispatching (note that customer_data is not touched). -/
def handle_confirmation (be : Backend) (st : AgentState) (req : FnArgs)
    (tl : String) : StepOut :=
  if containsAny tl confirmation_keywords then
    let result := execute_zendesk_function be "confirm_email_and_create_ticket" req
    ⟨{st with email_confirmation_pending := false, pending_ticket_request := none},
     if result.success then result.message.getD "Your request has been submitted successfully."
     else "I" ++ q ++ "m sorry, but I encountered an issue: "
       ++ result.error.getD "Unknown error"
       ++ ". Please try again or contact support directly.",
     [.dispatchCall "confirm_email_and_create_ticket" req]⟩
  else if containsAny tl denial_keywords then
    ⟨{st with
        email_confirmation_pending := false
        pending_ticket_request := none
        customer_email := none},
     "I understand. Could you please provide the correct email address?", []⟩
  else
    ⟨st, unclear_confirmation_reply, []⟩

/-- Canned greeting reply: personalized when customer_data is set.  The dict
get default "there" in the source is dead because the name key is always
present in the stored customer record (its value may be None, which an
f-string renders as the string None). -/
def greeting_reply (st : AgentState) : String :=
  match st.customer_data with
  | some c => "Hello " ++ pyOptStr c.name
      ++ "! I" ++ q ++ "m here to help. What would you like to know about your account or appointments?"
  | none => "Hello! I" ++ q ++ "m your customer service assistant. I can help you with account information, appointments, orders, and support requests. How can I assist you today?"

/-- Canned general-question reply, keyed on whether customer_data is set. -/
def general_reply (st : AgentState) : String :=
  match st.customer_data with
  | some _ => "Since I have your account information, I can help you with your appointments, orders, payments, and support requests. What would you like to know?"
  | none => "I can help you with your account information, check appointments and orders, create support tickets, and answer questions about your services. What would you like to know?"

/-- Reply asking for an email address (used by the account-keyword short
circuit and by the create_support_ticket safety check; the two source strings
are identical). -/
def email_request_reply : String :=
  "I" ++ q ++ "ll need your email address to help you with that. Could you please provide your email address?"

/-- The fixed apology of the outer exception handler of the conversation step. -/
def generic_apology : String :=
  "I" ++ q ++ "m sorry, I" ++ q ++ "m having trouble processing your request right now. Please try again."

/-- Apology template interpolating a dispatcher error string. -/
def issue_apology (e : String) : String :=
  "I" ++ q ++ "m sorry, but I encountered an issue: " ++ e ++ ". Please try again or contact support directly."

/-- Reply given when a get_customer_info lookup with the session email fails. -/
def wrong_email_reply (st : AgentState) : String :=
  "I don" ++ q ++ "t see any account details using the email " ++ pyOptStr st.customer_email ++ ". Could you please check and provide me with the correct email address so I can help you with your request?"

/-- Handler for a get_customer_info call while a session email is set (source
lines 832-860): on success store the customer record and, when the sticky
intent is refund or escalate, immediately chain into escalate_to_billing. -/
def gci_branch (be : Backend) (st : AgentState) (args : FnArgs) : StepOut :=
  let result := execute_zendesk_function be "get_customer_info" args
  if result.success then
    let st1 := {st with customer_data := result.customer}
    if st1.last_intent = some "refund" || st1.last_intent = some "escalate" then
      let escArgs : FnArgs :=
        {email := st1.customer_email,
         reason := some (pyOrD st1.last_intent_details "Refund request"),
         priority := some "high"}
      let esc := execute_zendesk_function be "escalate_to_billing" escArgs
      let reply :=
        if esc.success then pyOptStr esc.message
        else "I" ++ q ++ "ve escalated your request to our billing department. They will review your case and contact you within 24 hours."
      ⟨st1, reply, [.llmCall, .dispatchCall "get_customer_info" args,
        .dispatchCall "escalate_to_billing" escArgs]⟩
    else
      -- in the none case the source subscripts None and raises, and the outer
      -- handler returns the apology (unreachable with this dispatcher model,
      -- whose successful lookups always carry a customer record)
      ⟨st1,
       match result.customer with
       | some c => "Great! I found your account. Welcome back, " ++ pyOptStr c.name
           ++ ". How can I help you today?"
       | none => generic_apology,
       [.llmCall, .dispatchCall "get_customer_info" args]⟩
  else
    ⟨st, wrong_email_reply st, [.llmCall, .dispatchCall "get_customer_info" args]⟩

/-- Handler for an escalate_to_billing call (source lines 863-874): with a
session email, first verify the customer via get_customer_info and refuse on
failure; without one, dispatch the escalation directly. -/
def esc_branch (be : Backend) (st : AgentState) (args : FnArgs) : StepOut :=
  if truthyS st.customer_email then
    let checkArgs : FnArgs := {email := st.customer_email}
    let check := execute_zendesk_function be "get_customer_info" checkArgs
    if check.success then
      let r := execute_zendesk_function be "escalate_to_billing" args
      ⟨st, pyOptStr r.message,
       [.llmCall, .dispatchCall "get_customer_info" checkArgs,
        .dispatchCall "escalate_to_billing" args]⟩
    else
      ⟨st, "I don" ++ q ++ "t see any account details using the email "
         ++ pyOptStr st.customer_email
         ++ ". Could you please check and provide me with the correct email address so I can escalate your request?",
       [.llmCall, .dispatchCall "get_customer_info" checkArgs]⟩
  else
    let r := execute_zendesk_function be "escalate_to_billing" args
    ⟨st, pyOptStr r.message, [.llmCall, .dispatchCall "escalate_to_billing" args]⟩

/-- Renderer of the default-execution branch (source lines 888-990), keyed on
the executed function and its result.  When the result is successful but the
function is none of the rendered ones and the sticky intent is one of order,
ticket or appointment, the source reads the function-local names last_ticket,
last_order and last_appointment, which are unbound on that path (they shadow
the globals), so Python raises UnboundLocalError and the outer handler
returns the generic apology. -/
def render_default (function_name : String) (result : FnResult) (st : AgentState) : String :=
  if result.success then
    if function_name = "get_customer_info" then
      match result.customer with
      | some c => "Great! I found your account. Welcome back, " ++ pyOptStr c.name
          ++ ". How can I help you today?"
      | none => generic_apology
    else if function_name = "search_customer_tickets" then
      match result.appointments with
      | some appts => renderAppointments appts
      | none =>
          match result.orders with
          | some ords => renderOrders ords
          | none => renderTickets (result.tickets.getD [])
    else if function_name = "create_support_ticket" then
      "Perfect! " ++ pyOptStr result.message
        ++ " Our team will review your request and get back to you soon."
    else if function_name = "confirm_email_and_create_ticket" then
      "Perfect! " ++ pyOptStr result.message
        ++ " Our team will review your request and get back to you soon."
    else if function_name = "add_comment_to_ticket" then
      "Great! " ++ pyOptStr result.message
        ++ ". Your information has been added to the ticket."
    else if function_name = "escalate_to_billing" then
      pyOptStr result.message
    else if st.last_intent = some "order" || st.last_intent = some "ticket"
        || st.last_intent = some "appointment" then
      generic_apology
    else
      issue_apology (result.error.getD "Unknown error occurred")
  else
    issue_apology (result.error.getD "Unknown error occurred")

/-- The model-driven part of the conversation step (source lines 756-1009):
invoke the model once, then act on the scanned function call (the branches
appear in source order).  When the call is create_support_ticket with a truthy
email, the source evaluates result.get at line 877 while the local variable
result is still unassigned, so Python raises UnboundLocalError and the outer
handler returns the generic apology with nothing dispatched. -/
def llm_branch (be : Backend) (llm : LlmResponse) (st : AgentState) : StepOut :=
  match llm with
  | .direct text => ⟨st, text, [.llmCall]⟩
  | .fnCall name args raw =>
      if name = "" || !args.nonempty then ⟨st, raw, [.llmCall]⟩
      else if name = "create_support_ticket" && !truthyS args.email then
        ⟨st, email_request_reply, [.llmCall]⟩
      else if name = "get_customer_info" && truthyS st.customer_email then
        gci_branch be st args
      else if name = "escalate_to_billing" then
        esc_branch be st args
      else if name = "create_support_ticket" then
        ⟨st, generic_apology, [.llmCall]⟩
      else
        let result := execute_zendesk_function be name args
        ⟨st, render_default name result st, [.llmCall, .dispatchCall name args]⟩

/-- The guard of the ask-for-email short circuit: an account keyword occurs
and neither customer data nor a session email is known. -/
def needs_email_gate (st : AgentState) (tl : String) : Bool :=
  containsAny tl account_keywords && st.customer_data.isNone && !truthyS st.customer_email

/-- The conversation step after the confirmation flow: greeting and
general-question short circuits, the ask-for-email short circuit, then the
model-driven branch. -/
def post_confirmation (be : Backend) (llm : LlmResponse) (st : AgentState)
    (tl : String) : StepOut :=
  if containsAny tl simple_greetings then ⟨st, greeting_reply st, []⟩
  else if containsAny tl general_questions then ⟨st, general_reply st, []⟩
  else if needs_email_gate st tl then ⟨st, email_request_reply, []⟩
  else llm_branch be llm st

/-- Branch dispatch of the conversation step: the confirmation flow fully
short-circuits the turn when its gate holds. -/
def pwfc_branch (be : Backend) (llm : LlmResponse) (st : AgentState)
    (tl : String) : StepOut :=
  if confirm_gate st then
    handle_confirmation be st (st.pending_ticket_request.getD {}) tl
  else post_confirmation be llm st tl

/-- Model of process_with_function_calling: extract the email, update the
sticky intent, run the branch for the (lowered, stripped) utterance, and
append the user and assistant turns to the history exactly once each, as
every branch of the source does before returning. -/
def process_with_function_calling (be : Backend) (llm : LlmResponse)
    (st0 : AgentState) (transcript : String) : StepOut :=
  let st1 := update_email st0 transcript
  let tl := pyStrip (pyLower transcript)
  let st2 := update_intent st1 transcript tl
  let b := pwfc_branch be llm st2 tl
  ⟨appendTurns b.st transcript b.reply, b.reply, b.calls⟩

/-- Topic detection of process_with_gemini (source lines 1026-1035): on the
very first turn an extra model call labels the conversation topic; a model
failure (oracle none) falls back to the topic general.  Either way the model
was invoked, so an llmCall is recorded. -/
def topic_step (st : AgentState) (topicResp : Option String) : AgentState × List ExtCall :=
  if st.conversation_topic = "" && st.conversation_history.length = 1 then
    match topicResp with
    | some t => ({st with conversation_topic := pyLower (pyStrip t)}, [.llmCall])
    | none => ({st with conversation_topic := "general"}, [.llmCall])
  else (st, [])

/-- History truncation of process_with_gemini: keep the last 12 entries when
the history exceeds 12. -/
def truncate12 (l : List DialogueTurn) : List DialogueTurn :=
  if l.length > 12 then l.drop (l.length - 12) else l

/-- Model of process_with_gemini: append the user turn, run topic detection,
run process_with_function_calling (which appends the user and assistant turns
again), append the assistant turn, and truncate the history to 12 entries. -/
def process_with_gemini (be : Backend) (topicResp : Option String)
    (llm : LlmResponse) (st0 : AgentState) (transcript : String) : StepOut :=
  let st1 := {st0 with conversation_history :=
    st0.conversation_history ++ [⟨"user", transcript⟩]}
  let tp := topic_step st1 topicResp
  let inner := process_with_function_calling be llm tp.1 transcript
  let finalHist := truncate12 (inner.st.conversation_history ++ [⟨"assistant", inner.reply⟩])
  ⟨{inner.st with conversation_history := finalHist}, inner.reply, tp.2 ++ inner.calls⟩

/-- State of the utterance assembler: the transcript segment buffer and the
speaking flag of the playback coordinator. -/
structure SttState where
  transcript_buffer : List String
  speaking : Bool
deriving DecidableEq, Repr

/-- Events delivered to on_stt_message: the UtteranceEnd marker, or a
transcript message carrying the segment text and its flags. -/
inductive SttEvent where
  | utteranceEnd
  | transcriptEvt (transcript : String) (is_final : Bool) (is_interim : Bool)
      (speech_final : Bool)
deriving DecidableEq, Repr

/-- Model of on_stt_message: on UtteranceEnd with a nonempty buffer, join the
buffer with spaces, trim it and clear the buffer; the joined utterance is
emitted only when nonempty and the speaking flag is clear (while speaking the
utterance is discarded outright).  A final transcript segment with nonempty
text is appended to the buffer; interim results are observable only. -/
def on_stt_message (st : SttState) (ev : SttEvent) : SttState × Option String :=
  match ev with
  | .utteranceEnd =>
      if st.transcript_buffer.isEmpty then (st, none)
      else
        let full := pyStrip (joinSp st.transcript_buffer)
        let st1 : SttState := {st with transcript_buffer := []}
        if full = "" then (st1, none)
        else if st1.speaking then (st1, none)
        else (st1, some full)
  | .transcriptEvt t fin _ _ =>
      if t = "" then (st, none)
      else if fin then ({st with transcript_buffer := st.transcript_buffer ++ [t]}, none)
      else (st, none)

/-- Run a sequence of transcription events, collecting emitted utterances. -/
def runStt (st : SttState) (evs : List SttEvent) : SttState × List String :=
  match evs with
  | [] => (st, [])
  | e :: rest =>
      let r1 := on_stt_message st e
      let r2 := runStt r1.1 rest
      (r2.1, (match r1.2 with | some u => [u] | none => []) ++ r2.2)

/-- A small backend sample: no existing customers or open tickets; creating a
customer or a ticket succeeds. -/
def sampleBackend : Backend :=
  {getCustomerByEmail := fun _ => none,
   getOpenTicketsByEmail := fun _ => [],
   createTicket := fun _ => some "1001",
   addCommentToTicket := fun _ _ _ => true,
   createCustomer := fun e => some {id := some 7, name := some "Customer", email := some e}}

/-- A concrete pending ticket-creation request. -/
def sampleReq : FnArgs :=
  {email := some "jeff@gmail.com", subject := some "Broken screen",
   description := some "The screen cracked"}

/-- A session state in the email-confirmation state (pending request set). -/
def pendingState : AgentState :=
  {email_confirmation_pending := true, pending_ticket_request := some sampleReq}

/-- A known customer record used by the identity-related scenarios. -/
def sampleCustomer : Customer :=
  {id := some 3, name := some "Jeff", email := some "jeff@gmail.com"}

/-- The confirmation state with a known customer identity stored. -/
def pendingStateWithIdentity : AgentState :=
  {pendingState with customer_data := some sampleCustomer}

/-- The utterance yes that-apostrophe-s right. -/
def yesUtterance : String := "yes that" ++ q ++ "s right"

/-- The utterance no that-apostrophe-s wrong. -/
def noUtterance : String := "no that" ++ q ++ "s wrong"

/-- The utterance that-apostrophe-s incorrect (a denial phrasing containing
the confirmation keyword correct as a substring). -/
def incorrectUtterance : String := "that" ++ q ++ "s incorrect"

/-- Session state for the unknown-customer ticket-creation scenario: a session
email is set. -/
def c1State : AgentState := {customer_email := some "newuser@example.com"}

/-- Arguments of the scanned create_support_ticket call of that scenario. -/
def c1Args : FnArgs :=
  {email := some "newuser@example.com", subject := some "Replacement request",
   description := some "Device stopped working"}

/-- A ticket whose subject contains both an appointment keyword and an order
keyword. -/
def c6Ticket : Ticket := {id := 42, subject := some "Order appointment", description := some ""}

/-- Backend with one known customer owning exactly the overlapping ticket. -/
def c6Backend : Backend :=
  {getCustomerByEmail := fun _ => some {id := some 1, name := some "Jeff"},
   getOpenTicketsByEmail := fun _ => [c6Ticket],
   createTicket := fun _ => some "1",
   addCommentToTicket := fun _ _ _ => true,
   createCustomer := fun _ => none}

/-- A history of eight turns (four exchanges), used to exercise truncation. -/
def hist8 : List DialogueTurn :=
  [⟨"user", "u1"⟩, ⟨"assistant", "a1"⟩, ⟨"user", "u2"⟩, ⟨"assistant", "a2"⟩,
   ⟨"user", "u3"⟩, ⟨"assistant", "a3"⟩, ⟨"user", "u4"⟩, ⟨"assistant", "a4"⟩]

/-- A session state carrying the eight-turn history. -/
def hist8State : AgentState := {conversation_history := hist8}

theorem update_email_pending (st : AgentState) (t : String) :
    (update_email st t).pending_ticket_request = st.pending_ticket_request := by
  unfold update_email
  cases extract_email_from_text t <;> rfl

theorem update_email_flag (st : AgentState) (t : String) :
    (update_email st t).email_confirmation_pending = st.email_confirmation_pending := by
  unfold update_email
  cases extract_email_from_text t <;> rfl

theorem update_email_data (st : AgentState) (t : String) :
    (update_email st t).customer_data = st.customer_data := by
  unfold update_email
  cases extract_email_from_text t <;> rfl

theorem update_email_hist (st : AgentState) (t : String) :
    (update_email st t).conversation_history = st.conversation_history := by
  unfold update_email
  cases extract_email_from_text t <;> rfl

theorem update_email_intent (st : AgentState) (t : String) :
    (update_email st t).last_intent = st.last_intent := by
  unfold update_email
  cases extract_email_from_text t <;> rfl

theorem update_email_none (st : AgentState) (t : String)
    (h : extract_email_from_text t = none) : update_email st t = st := by
  unfold update_email
  rw [h]

theorem update_intent_pending (st : AgentState) (t tl : String) :
    (update_intent st t tl).pending_ticket_request = st.pending_ticket_request := by
  unfold update_intent
  split <;> try rfl
  split <;> try rfl
  split <;> rfl

theorem update_intent_flag (st : AgentState) (t tl : String) :
    (update_intent st t tl).email_confirmation_pending = st.email_confirmation_pending := by
  unfold update_intent
  split <;> try rfl
  split <;> try rfl
  split <;> rfl

theorem update_intent_data (st : AgentState) (t tl : String) :
    (update_intent st t tl).customer_data = st.customer_data := by
  unfold update_intent
  split <;> try rfl
  split <;> try rfl
  split <;> rfl

theorem update_intent_hist (st : AgentState) (t tl : String) :
    (update_intent st t tl).conversation_history = st.conversation_history := by
  unfold update_intent
  split <;> try rfl
  split <;> try rfl
  split <;> rfl

theorem update_intent_email (st : AgentState) (t tl : String) :
    (update_intent st t tl).customer_email = st.customer_email := by
  unfold update_intent
  split <;> try rfl
  split <;> try rfl
  split <;> rfl

theorem handle_confirmation_hist (be : Backend) (st : AgentState) (req : FnArgs)
    (tl : String) :
    (handle_confirmation be st req tl).st.conversation_history = st.conversation_history := by
  unfold handle_confirmation
  split <;> try rfl
  split <;> rfl

theorem gci_branch_hist (be : Backend) (st : AgentState) (args : FnArgs) :
    (gci_branch be st args).st.conversation_history = st.conversation_history := by
  unfold gci_branch
  dsimp only
  split <;> try rfl
  split <;> rfl

theorem esc_branch_hist (be : Backend) (st : AgentState) (args : FnArgs) :
    (esc_branch be st args).st.conversation_history = st.conversation_history := by
  unfold esc_branch
  dsimp only
  split <;> try rfl
  split <;> rfl

theorem llm_branch_hist (be : Backend) (llm : LlmResponse) (st : AgentState) :
    (llm_branch be llm st).st.conversation_history = st.conversation_history := by
  cases llm with
  | direct text => rfl
  | fnCall name args raw =>
      show (llm_branch be (.fnCall name args raw) st).st.conversation_history
        = st.conversation_history
      simp only [llm_branch]
      split <;> try rfl
      split <;> try rfl
      split
      · exact gci_branch_hist be st args
      · split
        · exact esc_branch_hist be st args
        · split <;> rfl

theorem post_confirmation_hist (be : Backend) (llm : LlmResponse) (st : AgentState)
    (tl : String) :
    (post_confirmation be llm st tl).st.conversation_history = st.conversation_history := by
  unfold post_confirmation
  split <;> try rfl
  split <;> try rfl
  split
  · rfl
  · exact llm_branch_hist be llm st

theorem pwfc_branch_hist (be : Backend) (llm : LlmResponse) (st : AgentState)
    (tl : String) :
    (pwfc_branch be llm st tl).st.conversation_history = st.conversation_history := by
  unfold pwfc_branch
  split
  · exact handle_confirmation_hist be st _ tl
  · exact post_confirmation_hist be llm st tl

theorem pwfc_hist (be : Backend) (llm : LlmResponse) (st : AgentState) (t : String) :
    (process_with_function_calling be llm st t).st.conversation_history
      = st.conversation_history
        ++ [⟨"user", t⟩, ⟨"assistant", (process_with_function_calling be llm st t).reply⟩] := by
  simp only [process_with_function_calling, appendTurns]
  rw [pwfc_branch_hist, update_intent_hist, update_email_hist]

theorem topic_step_hist (st : AgentState) (r : Option String) :
    (topic_step st r).1.conversation_history = st.conversation_history := by
  unfold topic_step
  split
  · cases r <;> rfl
  · rfl

theorem handle_confirmation_confirm (be : Backend) (st : AgentState) (req : FnArgs)
    (tl : String) (h : containsAny tl confirmation_keywords = true) :
    (handle_confirmation be st req tl).st
        = {st with email_confirmation_pending := false, pending_ticket_request := none}
      ∧ (handle_confirmation be st req tl).calls
        = [ExtCall.dispatchCall "confirm_email_and_create_ticket" req] := by
  simp only [handle_confirmation, h]
  exact ⟨rfl, rfl⟩

theorem handle_confirmation_deny (be : Backend) (st : AgentState) (req : FnArgs)
    (tl : String) (hc : containsAny tl confirmation_keywords = false)
    (hd : containsAny tl denial_keywords = true) :
    handle_confirmation be st req tl
      = ⟨{st with
            email_confirmation_pending := false
            pending_ticket_request := none
            customer_email := none},
         "I understand. Could you please provide the correct email address?", []⟩ := by
  simp only [handle_confirmation, hc, hd]
  rfl

theorem handle_confirmation_neither (be : Backend) (st : AgentState) (req : FnArgs)
    (tl : String) (hc : containsAny tl confirmation_keywords = false)
    (hd : containsAny tl denial_keywords = false) :
    handle_confirmation be st req tl = ⟨st, unclear_confirmation_reply, []⟩ := by
  simp only [handle_confirmation, hc, hd]
  rfl

theorem confirm_gate_stable (st : AgentState) (t tl : String) :
    confirm_gate (update_intent (update_email st t) t tl) = confirm_gate st := by
  unfold confirm_gate
  rw [update_intent_flag, update_email_flag, update_intent_pending, update_email_pending]

theorem pwfc_confirm_state (be : Backend) (llm : LlmResponse) (st : AgentState)
    (t : String) (req : FnArgs)
    (hp : st.pending_ticket_request = some req)
    (hf : st.email_confirmation_pending = true)
    (hne : req.nonempty = true) :
    process_with_function_calling be llm st t
      = (let tl := pyStrip (pyLower t)
         let st2 := update_intent (update_email st t) t tl
         let b := handle_confirmation be st2 req tl
         ⟨appendTurns b.st t b.reply, b.reply, b.calls⟩) := by
  have h1 : (update_intent (update_email st t) t (pyStrip (pyLower t))).pending_ticket_request
      = some req := by
    rw [update_intent_pending, update_email_pending, hp]
  have h2 : (update_intent (update_email st t) t (pyStrip (pyLower t))).email_confirmation_pending
      = true := by
    rw [update_intent_flag, update_email_flag, hf]
  have hg : confirm_gate (update_intent (update_email st t) t (pyStrip (pyLower t))) = true := by
    unfold confirm_gate
    rw [h1, h2]
    exact hne
  simp only [process_with_function_calling, pwfc_branch, hg, if_true, h1, Option.getD_some]

theorem pwfc_not_confirm (be : Backend) (llm : LlmResponse) (st : AgentState)
    (t : String) (hg : confirm_gate st = false) :
    process_with_function_calling be llm st t
      = (let tl := pyStrip (pyLower t)
         let st2 := update_intent (update_email st t) t tl
         let b := post_confirmation be llm st2 tl
         ⟨appendTurns b.st t b.reply, b.reply, b.calls⟩) := by
  have hg2 : confirm_gate (update_intent (update_email st t) t (pyStrip (pyLower t))) = false := by
    rw [confirm_gate_stable, hg]
  simp only [process_with_function_calling, pwfc_branch, hg2, if_false, Bool.false_eq_true]

theorem greeting_reply_congr (s1 s2 : AgentState)
    (h : s1.customer_data = s2.customer_data) : greeting_reply s1 = greeting_reply s2 := by
  unfold greeting_reply
  rw [h]

theorem truncate12_length (l : List DialogueTurn) (h : 12 ≤ l.length) :
    (truncate12 l).length = 12 := by
  unfold truncate12
  split
  · rw [List.length_drop]
    omega
  · omega

/-- C1: the spec says that a dispatched create_support_ticket call made while
a session email is set, for which the ticketing backend reports no matching
customer, sets PendingConfirmation, enters AwaitingConfirmation and asks the
caller to confirm the email.  The dispatcher does flag such calls
needs_confirmation, but the state machine never gets there: the handler block
reads the local variable result before any assignment on that path, so Python
raises UnboundLocalError; the outer handler replies with the generic apology,
nothing is dispatched, and the confirmation state is never set.  This theorem
evaluates the model at the failing input: the dispatcher would report
needs_confirmation, yet the step returns the apology with only the model call
in its trace and the pending-confirmation state still clear. -/
theorem C1_create_ticket_unbound_crash :
    sampleBackend.getCustomerByEmail "newuser@example.com" = none
  ∧ (execute_zendesk_function sampleBackend "create_support_ticket" c1Args).needs_confirmation
      = true
  ∧ (process_with_function_calling sampleBackend
        (.fnCall "create_support_ticket" c1Args "raw") c1State
        "I want to open a support ticket").reply = generic_apology
  ∧ (process_with_function_calling sampleBackend
        (.fnCall "create_support_ticket" c1Args "raw") c1State
        "I want to open a support ticket").calls = [ExtCall.llmCall]
  ∧ (process_with_function_calling sampleBackend
        (.fnCall "create_support_ticket" c1Args "raw") c1State
        "I want to open a support ticket").st.email_confirmation_pending = false
  ∧ (process_with_function_calling sampleBackend
        (.fnCall "create_support_ticket" c1Args "raw") c1State
        "I want to open a support ticket").st.pending_ticket_request = none := by
  refine ⟨rfl, by decide, by decide, by decide, by decide, by decide⟩

/-- C2 (counterexample): the claim says each processed utterance appends
exactly one user turn and one assistant turn.  Processing the single
utterance hello from the empty state leaves a four-entry history in which
both the user turn and the assistant turn appear twice: the wrapper
process_with_gemini and the branch inside process_with_function_calling each
append the pair. -/
theorem C2_double_append_counterexample :
    (process_with_gemini sampleBackend (some "greeting") (.direct "ok") {} "hello").st.conversation_history
      = [⟨"user", "hello"⟩, ⟨"user", "hello"⟩,
         ⟨"assistant", greeting_reply {}⟩, ⟨"assistant", greeting_reply {}⟩]
  ∧ (process_with_gemini sampleBackend (some "greeting") (.direct "ok") {} "hello").st.conversation_history.length
      = 4 := by
  exact ⟨by decide, by decide⟩

/-- C2 (amended): whichever branch of the conversation step runs, one
processed utterance appends the user turn twice and the assistant turn twice
(the wrapper and the branch both append a user/assistant pair), after which
the history is truncated to the most recent 12 entries; consequently once the
history holds at least 8 entries, after the next processed utterance its
length is exactly 12, holding the most recent three duplicated exchanges. -/
theorem C2_history_amended (be : Backend) (topicResp : Option String)
    (llm : LlmResponse) (st : AgentState) (t : String) :
    (process_with_gemini be topicResp llm st t).st.conversation_history
      = truncate12 (st.conversation_history
          ++ [⟨"user", t⟩, ⟨"user", t⟩,
              ⟨"assistant", (process_with_gemini be topicResp llm st t).reply⟩,
              ⟨"assistant", (process_with_gemini be topicResp llm st t).reply⟩])
  ∧ (8 ≤ st.conversation_history.length →
      (process_with_gemini be topicResp llm st t).st.conversation_history.length = 12) := by
  have hmain : (process_with_gemini be topicResp llm st t).st.conversation_history
      = truncate12 (st.conversation_history
          ++ [⟨"user", t⟩, ⟨"user", t⟩,
              ⟨"assistant", (process_with_gemini be topicResp llm st t).reply⟩,
              ⟨"assistant", (process_with_gemini be topicResp llm st t).reply⟩]) := by
    simp only [process_with_gemini]
    rw [pwfc_hist, topic_step_hist]
    simp [List.append_assoc]
  refine ⟨hmain, fun h => ?_⟩
  rw [hmain, truncate12_length]
  simp only [List.length_append, List.length_cons, List.length_nil]
  omega

/-- C2 (witness): the amended truncation consequence at a concrete state with
an eight-entry history. -/
theorem C2_history_amended_witness :
    8 ≤ hist8State.conversation_history.length
  ∧ (process_with_gemini sampleBackend none (.direct "ok") hist8State "hello").st.conversation_history.length
      = 12 :=
  ⟨by decide,
   (C2_history_amended sampleBackend none (.direct "ok") hist8State "hello").2 (by decide)⟩

/-- C3 (counterexample): the claim says an utterance matching neither the
confirm nor the deny keyword set re-prompts without altering state.  With the
pending confirmation set, the utterance order matches neither set, the step
replies with the re-prompt — yet the state changes: the sticky-intent update,
which runs before the confirmation check, sets last_intent to support. -/
theorem C3_neither_alters_state_counterexample :
    containsAny (pyStrip (pyLower "order")) confirmation_keywords = false
  ∧ containsAny (pyStrip (pyLower "order")) denial_keywords = false
  ∧ (process_with_function_calling sampleBackend (.direct "x") pendingState "order").reply
      = unclear_confirmation_reply
  ∧ pendingState.last_intent = none
  ∧ (process_with_function_calling sampleBackend (.direct "x") pendingState "order").st.last_intent
      = some "support" := by
  exact ⟨by decide, by decide, by decide, rfl, by decide⟩

/-- C3 (amended): with PendingConfirmation set, an utterance containing a
confirm keyword causes exactly one dispatch, of
confirm_email_and_create_ticket with the pending arguments, and clears the
pending state; an utterance containing no confirm keyword but a deny keyword
clears the pending state and the session email without any dispatch; an
utterance containing neither re-prompts and leaves the pending-confirmation
state, the customer identity, and (when the utterance holds no extractable
email) the session email unchanged — though the email-extraction and
intent-tracking steps that run before the confirmation check may still update
sticky intent or overwrite the session email.  In every case the call trace
holds no language-model call. -/
theorem C3_confirmation_flow (be : Backend) (llm : LlmResponse) (st : AgentState)
    (t : String) (req : FnArgs)
    (hp : st.pending_ticket_request = some req)
    (hf : st.email_confirmation_pending = true)
    (hne : req.nonempty = true) :
    (containsAny (pyStrip (pyLower t)) confirmation_keywords = true →
       (process_with_function_calling be llm st t).calls
           = [ExtCall.dispatchCall "confirm_email_and_create_ticket" req]
         ∧ (process_with_function_calling be llm st t).st.email_confirmation_pending = false
         ∧ (process_with_function_calling be llm st t).st.pending_ticket_request = none)
  ∧ (containsAny (pyStrip (pyLower t)) confirmation_keywords = false →
     containsAny (pyStrip (pyLower t)) denial_keywords = true →
       (process_with_function_calling be llm st t).calls = []
         ∧ (process_with_function_calling be llm st t).st.email_confirmation_pending = false
         ∧ (process_with_function_calling be llm st t).st.pending_ticket_request = none
         ∧ (process_with_function_calling be llm st t).st.customer_email = none)
  ∧ (containsAny (pyStrip (pyLower t)) confirmation_keywords = false →
     containsAny (pyStrip (pyLower t)) denial_keywords = false →
       (process_with_function_calling be llm st t).calls = []
         ∧ (process_with_function_calling be llm st t).reply = unclear_confirmation_reply
         ∧ (process_with_function_calling be llm st t).st.pending_ticket_request = some req
         ∧ (process_with_function_calling be llm st t).st.email_confirmation_pending = true
         ∧ (process_with_function_calling be llm st t).st.customer_data = st.customer_data
         ∧ (extract_email_from_text t = none →
             (process_with_function_calling be llm st t).st.customer_email
               = st.customer_email)) := by
  rw [pwfc_confirm_state be llm st t req hp hf hne]
  dsimp only
  refine ⟨fun hcf => ?_, fun hc hd => ?_, fun hc hd => ?_⟩
  · obtain ⟨hs, hcalls⟩ := handle_confirmation_confirm be
      (update_intent (update_email st t) t (pyStrip (pyLower t))) req
      (pyStrip (pyLower t)) hcf
    refine ⟨hcalls, ?_, ?_⟩
    · simp only [appendTurns, hs]
    · simp only [appendTurns, hs]
  · rw [handle_confirmation_deny be
      (update_intent (update_email st t) t (pyStrip (pyLower t))) req
      (pyStrip (pyLower t)) hc hd]
    refine ⟨rfl, ?_, ?_, ?_⟩
    · simp only [appendTurns]
    · simp only [appendTurns]
    · simp only [appendTurns]
  · rw [handle_confirmation_neither be
      (update_intent (update_email st t) t (pyStrip (pyLower t))) req
      (pyStrip (pyLower t)) hc hd]
    refine ⟨rfl, rfl, ?_, ?_, ?_, fun hx => ?_⟩
    · simp only [appendTurns]
      rw [update_intent_pending, update_email_pending, hp]
    · simp only [appendTurns]
      rw [update_intent_flag, update_email_flag, hf]
    · simp only [appendTurns]
      rw [update_intent_data, update_email_data]
    · simp only [appendTurns]
      rw [update_intent_email, update_email_none st t hx]

/-- C3 (witness): the amended confirmation flow at the concrete confirm
utterance yes that-apostrophe-s right, dispatching exactly one
confirm_email_and_create_ticket call with the pending request. -/
theorem C3_confirmation_flow_witness :
    pendingState.pending_ticket_request = some sampleReq
  ∧ pendingState.email_confirmation_pending = true
  ∧ sampleReq.nonempty = true
  ∧ containsAny (pyStrip (pyLower yesUtterance)) confirmation_keywords = true
  ∧ (process_with_function_calling sampleBackend (.direct "x") pendingState yesUtterance).calls
      = [ExtCall.dispatchCall "confirm_email_and_create_ticket" sampleReq] :=
  ⟨rfl, rfl, by decide, by decide,
   ((C3_confirmation_flow sampleBackend (.direct "x") pendingState yesUtterance sampleReq
      rfl rfl (by decide)).1 (by decide)).1⟩

/-- C4 (counterexample): the claim says a deny-keyword utterance during
confirmation clears the stored CustomerIdentity.  At a confirmation state
holding a known customer record, the deny utterance leaves customer_data
untouched: only the pending request and the session email are cleared. -/
theorem C4_deny_keeps_identity_counterexample :
    containsAny (pyStrip (pyLower noUtterance)) confirmation_keywords = false
  ∧ containsAny (pyStrip (pyLower noUtterance)) denial_keywords = true
  ∧ (process_with_function_calling sampleBackend (.direct "x")
        pendingStateWithIdentity noUtterance).st.customer_data = some sampleCustomer
  ∧ (process_with_function_calling sampleBackend (.direct "x")
        pendingStateWithIdentity noUtterance).st.customer_data ≠ none := by
  exact ⟨by decide, by decide, by decide, by decide⟩

/-- C4 (amended): when an email is denied during confirmation (a
deny-keyword, non-confirm-keyword utterance with PendingConfirmation set),
the pending request and the session email are cleared, but the stored
CustomerIdentity record is left unchanged — the denial branch never touches
customer_data. -/
theorem C4_deny_keeps_identity (be : Backend) (llm : LlmResponse) (st : AgentState)
    (t : String) (req : FnArgs)
    (hp : st.pending_ticket_request = some req)
    (hf : st.email_confirmation_pending = true)
    (hne : req.nonempty = true)
    (hc : containsAny (pyStrip (pyLower t)) confirmation_keywords = false)
    (hd : containsAny (pyStrip (pyLower t)) denial_keywords = true) :
    (process_with_function_calling be llm st t).st.customer_data = st.customer_data
  ∧ (process_with_function_calling be llm st t).st.customer_email = none
  ∧ (process_with_function_calling be llm st t).st.pending_ticket_request = none
  ∧ (process_with_function_calling be llm st t).st.email_confirmation_pending = false := by
  rw [pwfc_confirm_state be llm st t req hp hf hne]
  dsimp only
  rw [handle_confirmation_deny be
    (update_intent (update_email st t) t (pyStrip (pyLower t))) req
    (pyStrip (pyLower t)) hc hd]
  refine ⟨?_, ?_, ?_, ?_⟩
  · simp only [appendTurns]
    rw [update_intent_data, update_email_data]
  · simp only [appendTurns]
  · simp only [appendTurns]
  · simp only [appendTurns]

/-- C4 (witness): the amended denial frame effect at the concrete deny
utterance no that-apostrophe-s wrong, from a confirmation state holding a
known customer record. -/
theorem C4_deny_keeps_identity_witness :
    pendingStateWithIdentity.pending_ticket_request = some sampleReq
  ∧ pendingStateWithIdentity.email_confirmation_pending = true
  ∧ sampleReq.nonempty = true
  ∧ containsAny (pyStrip (pyLower noUtterance)) confirmation_keywords = false
  ∧ containsAny (pyStrip (pyLower noUtterance)) denial_keywords = true
  ∧ (process_with_function_calling sampleBackend (.direct "x")
        pendingStateWithIdentity noUtterance).st.customer_data
      = pendingStateWithIdentity.customer_data :=
  ⟨rfl, rfl, by decide, by decide, by decide,
   (C4_deny_keeps_identity sampleBackend (.direct "x") pendingStateWithIdentity
      noUtterance sampleReq rfl rfl (by decide) (by decide) (by decide)).1⟩

/-- C9: with PendingConfirmation set, confirm and deny detection is a
substring-containment test with the confirm set checked first: every
utterance whose lowered, stripped text contains a confirmation keyword takes
the confirm branch and dispatches confirm_email_and_create_ticket exactly
once (and makes no other external call), even when the utterance also
contains denial keywords — as with that-apostrophe-s incorrect, where correct
occurs inside incorrect. -/
theorem C9_confirm_checked_first (be : Backend) (llm : LlmResponse) (st : AgentState)
    (t : String) (req : FnArgs)
    (hp : st.pending_ticket_request = some req)
    (hf : st.email_confirmation_pending = true)
    (hne : req.nonempty = true)
    (hcf : containsAny (pyStrip (pyLower t)) confirmation_keywords = true) :
    (process_with_function_calling be llm st t).calls
      = [ExtCall.dispatchCall "confirm_email_and_create_ticket" req] := by
  rw [pwfc_confirm_state be llm st t req hp hf hne]
  dsimp only
  exact (handle_confirmation_confirm be
    (update_intent (update_email st t) t (pyStrip (pyLower t))) req
    (pyStrip (pyLower t)) hcf).2

/-- C9 (witness): the denial phrasing that-apostrophe-s incorrect contains
both a confirmation keyword (correct, inside incorrect) and denial keywords,
and the step dispatches confirm_email_and_create_ticket. -/
theorem C9_confirm_checked_first_witness :
    containsAny (pyStrip (pyLower incorrectUtterance)) confirmation_keywords = true
  ∧ containsAny (pyStrip (pyLower incorrectUtterance)) denial_keywords = true
  ∧ (process_with_function_calling sampleBackend (.direct "x") pendingState
        incorrectUtterance).calls
      = [ExtCall.dispatchCall "confirm_email_and_create_ticket" sampleReq] :=
  ⟨by decide, by decide,
   C9_confirm_checked_first sampleBackend (.direct "x") pendingState incorrectUtterance
     sampleReq rfl rfl (by decide) (by decide)⟩

/-- C10: outside the confirmation state, the greeting test is a lowercase
substring check: every utterance whose lowered, stripped text contains a
greeting word as a substring — for example hi occurring inside this — is
answered with the canned greeting template (personalized from the stored
customer record when identity is known), with no language-model call and no
dispatcher call, regardless of the rest of the utterance. -/
theorem C10_greeting_shortcircuit (be : Backend) (llm : LlmResponse)
    (st : AgentState) (t : String)
    (hg : confirm_gate st = false)
    (hgr : containsAny (pyStrip (pyLower t)) simple_greetings = true) :
    (process_with_function_calling be llm st t).calls = []
  ∧ (process_with_function_calling be llm st t).reply = greeting_reply st := by
  refine ⟨?_, ?_⟩
  · rw [pwfc_not_confirm be llm st t hg]
    dsimp only
    simp only [post_confirmation, hgr, if_true]
  · rw [pwfc_not_confirm be llm st t hg]
    dsimp only
    simp only [post_confirmation, hgr, if_true]
    exact greeting_reply_congr _ _ (by rw [update_intent_data, update_email_data])

/-- C10 (witness): the utterance this is about my order contains hi inside
this, so it is answered by the canned greeting with an empty call trace. -/
theorem C10_greeting_shortcircuit_witness :
    strContainsSub (pyStrip (pyLower "this is about my order")) "hi" = true
  ∧ confirm_gate {} = false
  ∧ containsAny (pyStrip (pyLower "this is about my order")) simple_greetings = true
  ∧ (process_with_function_calling sampleBackend (.direct "x") {}
        "this is about my order").calls = []
  ∧ (process_with_function_calling sampleBackend (.direct "x") {}
        "this is about my order").reply = greeting_reply {} :=
  ⟨by decide, by decide, by decide,
   (C10_greeting_shortcircuit sampleBackend (.direct "x") {} "this is about my order"
      (by decide) (by decide)).1,
   (C10_greeting_shortcircuit sampleBackend (.direct "x") {} "this is about my order"
      (by decide) (by decide)).2⟩

/-- C5: the claim (and the source comments) say the spoken-form input is
normalized to a jeff.smith@gmail.com-shaped address.  In fact the leftmost
spoken-form match starts at me (me is a valid user token and the first spoken
at follows it), and the whitespace removal runs before the word-bounded
at/dot substitutions, destroying the word boundaries, so neither substitution
fires: the function returns meatjeffdotsmith, which is not an email shape.
The no-email case does return none, and the match failure there is a genuine
nomatch of the engine, not a fuel artifact. -/
theorem C5_extract_email_eval :
    extract_email_from_text "contact me at jeff dot smith at gmail dot com"
      = some "meatjeffdotsmith"
  ∧ extract_email_from_text "no email here" = none
  ∧ findEmailMatch "no email here".data = .nomatch
  ∧ extract_email_from_text "my email is jeff@gmail.com" = some "jeff@gmail.com" := by
  exact ⟨by decide, by decide, by decide, by decide⟩

/-- C6 (counterexample): the claim says each open ticket lands in at most one
bucket, tested in appointments-orders-tickets priority order.  A single
ticket whose subject is Order appointment is returned by the appointments
search, by the orders search, and by the generic tickets search: the buckets
are independent per-call filters with no priority. -/
theorem C6_bucket_overlap_counterexample :
    (execute_zendesk_function c6Backend "search_customer_tickets"
        {email := some "a@b.com", search_type := some "appointments"}).appointments
      = some [c6Ticket]
  ∧ (execute_zendesk_function c6Backend "search_customer_tickets"
        {email := some "a@b.com", search_type := some "orders"}).orders
      = some [c6Ticket]
  ∧ (execute_zendesk_function c6Backend "search_customer_tickets"
        {email := some "a@b.com", search_type := some "tickets"}).tickets
      = some [c6Ticket] := by
  exact ⟨by decide, by decide, by decide⟩

/-- C6 (amended): search_customer_tickets filters the open tickets per call
by search_type: appointments selects the tickets whose lowercased subject or
description contains an appointment keyword; orders selects those whose
lowercased subject (only — the description is not consulted) contains an
order keyword; every other search_type returns all open tickets unfiltered.
The buckets are independent filters of separate calls: a ticket may appear in
several, and no priority order is applied. -/
theorem C6_search_buckets (be : Backend) (e : String) (he : e ≠ "") (sty : String)
    (h1 : sty ≠ "appointments") (h2 : sty ≠ "orders") :
    (execute_zendesk_function be "search_customer_tickets"
        {email := some e, search_type := some "appointments"}).appointments
      = some ((be.getOpenTicketsByEmail e).filter (fun tk =>
          appointment_keywords.any (fun k => strContainsSub (pyLower (tk.subject.getD "")) k)
            || appointment_keywords.any (fun k => strContainsSub (pyLower (tk.description.getD "")) k)))
  ∧ (execute_zendesk_function be "search_customer_tickets"
        {email := some e, search_type := some "orders"}).orders
      = some ((be.getOpenTicketsByEmail e).filter (fun tk =>
          order_keywords.any (fun k => strContainsSub (pyLower (tk.subject.getD "")) k)))
  ∧ (execute_zendesk_function be "search_customer_tickets"
        {email := some e, search_type := some sty}).tickets
      = some (be.getOpenTicketsByEmail e) := by
  have hbe : (e == "") = false := beq_eq_false_iff_ne.mpr he
  refine ⟨?_, ?_, ?_⟩
  · unfold execute_zendesk_function
    rw [if_neg (by decide), if_pos rfl]
    simp [truthyS, hbe]
  · unfold execute_zendesk_function
    rw [if_neg (by decide), if_pos rfl]
    simp [truthyS, hbe]
  · unfold execute_zendesk_function
    rw [if_neg (by decide), if_pos rfl]
    simp [truthyS, hbe, h1, h2]

/-- C6 (witness): the amended per-call filtering at the concrete backend of
the counterexample, for the generic bucket. -/
theorem C6_search_buckets_witness :
    ("a@b.com" : String) ≠ ""
  ∧ ("tickets" : String) ≠ "appointments"
  ∧ ("tickets" : String) ≠ "orders"
  ∧ (execute_zendesk_function c6Backend "search_customer_tickets"
        {email := some "a@b.com", search_type := some "tickets"}).tickets
      = some (c6Backend.getOpenTicketsByEmail "a@b.com") :=
  ⟨by decide, by decide, by decide,
   (C6_search_buckets c6Backend "a@b.com" (by decide) "tickets"
      (by decide) (by decide)).2.2⟩

theorem runStt_append (st : SttState) (a b : List SttEvent) :
    runStt st (a ++ b)
      = ((runStt (runStt st a).1 b).1,
         (runStt st a).2 ++ (runStt (runStt st a).1 b).2) := by
  induction a generalizing st with
  | nil => simp [runStt]
  | cons e rest ih =>
      simp only [List.cons_append, runStt, ih]
      simp [ih, List.append_assoc]

theorem runStt_finals (st : SttState) (segs : List String) :
    runStt st (segs.map (fun s => SttEvent.transcriptEvt s true false false))
      = ({st with transcript_buffer :=
            st.transcript_buffer ++ segs.filter (fun s => s ≠ "")}, []) := by
  induction segs generalizing st with
  | nil => simp [runStt]
  | cons s rest ih =>
      simp only [List.map_cons, runStt, on_stt_message]
      by_cases hs : s = ""
      · subst hs
        simp [ih]
      · simp [hs, ih, List.filter_cons, List.append_assoc]

/-- C7: for every sequence of final-segment transcript events followed by an
utterance-end event, fed from an empty buffer with the speaking flag clear,
the assembled utterance equals the space-joined, trimmed concatenation of the
buffered (nonempty) segments, it is emitted exactly when nonempty, and the
internal buffer is empty afterward; when the buffer is empty at utterance-end
(no nonempty segment was buffered), no utterance is emitted. -/
theorem C7_utterance_assembly (segs : List String) :
    runStt ⟨[], false⟩ (segs.map (fun s => SttEvent.transcriptEvt s true false false)
        ++ [SttEvent.utteranceEnd])
      = (⟨[], false⟩,
         if pyStrip (joinSp (segs.filter (fun s => s ≠ ""))) = "" then []
         else [pyStrip (joinSp (segs.filter (fun s => s ≠ "")))]) := by
  rw [runStt_append, runStt_finals]
  simp only [List.nil_append]
  by_cases hfe : segs.filter (fun s => s ≠ "") = []
  · rw [hfe]
    decide
  · obtain ⟨a, l, hal⟩ := List.exists_cons_of_ne_nil hfe
    rw [hal]
    by_cases hemp : pyStrip (joinSp (a :: l)) = ""
    · simp [runStt, on_stt_message, hemp]
    · simp [runStt, on_stt_message, hemp]

/-- C8: whenever the speaking flag is set, an utterance-end event never
produces a forwarded utterance: whatever the buffer held, nothing is emitted
(so no conversation step, logging or speech-synthesis call is driven by it)
and the buffer is cleared rather than kept for later — a hard drop. -/
theorem C8_speaking_drop (buf : List String) :
    on_stt_message ⟨buf, true⟩ .utteranceEnd = (⟨[], true⟩, none) := by
  cases buf with
  | nil => rfl
  | cons a l =>
      simp only [on_stt_message, List.isEmpty_cons, Bool.false_eq_true, if_false]
      split <;> rfl
